import Mathlib

/-!
Shallow embedding of the AI Job Interview Assistant backend (src/main.py).

The service is a FastAPI app with four POST endpoints that each parse a
JobRoleRequest body, apply Python falsy-or defaults, build an agent and a
task description, invoke a crew (one model call), and return a JSON object
with the echoed fields and one category field.  The model call is the only
effectful step; we embed it as an explicit `Except String String` outcome
parameter (error message on exception, result text on success).  Everything
else in the handlers is pure and is translated literally.
-/

namespace InterviewAssistant

/-- A JSON field of a request body: absent, explicit null, or a string. -/
inductive FieldVal where
  | absent
  | null
  | str (s : String)
deriving DecidableEq, Repr

/-- Raw JSON body of a POST request, before pydantic validation. -/
structure RawBody where
  role : FieldVal
  experience_level : FieldVal
  tech_stack : FieldVal
deriving DecidableEq, Repr

/-- Pydantic model `JobRoleRequest` (src/main.py lines 61-64):
`role: str`, `experience_level: str | None = "Fresher"`,
`tech_stack: str | None = None`. -/
structure JobRoleRequest where
  role : String
  experience_level : Option String
  tech_stack : Option String
deriving DecidableEq, Repr

/-- Pydantic validation of a raw body against `JobRoleRequest`:
`role` is a required `str` (absent or null is a validation error);
`experience_level` defaults to the string "Fresher" when absent and admits
an explicit null; `tech_stack` defaults to None when absent. -/
def parseJobRoleRequest (b : RawBody) : Except String JobRoleRequest :=
  match b.role with
  | .absent => .error "role: Field required"
  | .null => .error "role: Input should be a valid string"
  | .str r =>
      .ok { role := r
          , experience_level :=
              match b.experience_level with
              | .absent => some "Fresher"
              | .null => none
              | .str s => some s
          , tech_stack :=
              match b.tech_stack with
              | .absent => none
              | .null => none
              | .str s => some s }

/-- Python `x or d` on an optional string: `None` and `""` are falsy. -/
def pyOr (v : Option String) (d : String) : String :=
  match v with
  | none => d
  | some s => if s = "" then d else s

/-- Agent descriptor as constructed by the `build_*_agent` helpers
(the shared `llm` configuration and `verbose=True` carry no data the
handlers inspect, so only the text fields are embedded). -/
structure Agent where
  role : String
  goal : String
  backstory : String
deriving DecidableEq, Repr

/-- src/main.py lines 69-76. -/
def build_career_agent : Agent :=
  { role := "Career Research Expert"
  , goal := "Explain job roles, skills, learning paths, and expectations."
  , backstory := "You help students understand technical job profiles." }

/-- src/main.py lines 79-86. -/
def build_technical_agent : Agent :=
  { role := "Technical Interview Expert"
  , goal := "Generate technical interview questions and detailed answers based on job role."
  , backstory := "You have experience as a technical interviewer across IT companies." }

/-- src/main.py lines 89-96. -/
def build_hr_agent : Agent :=
  { role := "HR Interview & Soft Skills Expert"
  , goal := "Generate HR/behavioral interview questions with model answers."
  , backstory := "You have experience as HR evaluating communication, attitude and culture fit." }

/-- src/main.py lines 99-106. -/
def build_tips_agent : Agent :=
  { role := "Interview Coach"
  , goal := "Give practical interview tips, mistakes to avoid, and tricks to impress interviewer."
  , backstory := "You mentor freshers for college placements." }

/-- A crewai Task as constructed in the handlers: an instruction string,
an expected-output description, and the agent it is bound to. -/
structure Task where
  description : String
  expected_output : String
  agent : Agent
deriving DecidableEq, Repr

/-- The f-string task description of `generate_overview` (lines 122-129). -/
def overview_description (role exp tech : String) : String :=
  "Write a structured plain-text interview overview for the role: " ++ role ++ ".\n" ++
  "Experience level: " ++ exp ++ ", Tech stack: " ++ tech ++ ".\n" ++
  "Include: role summary, key responsibilities, technical skills, soft skills, " ++
  "and typical interview rounds (online test, technical rounds, HR, etc.).\n" ++
  "Important: No markdown (*, #, **). Plain clean text only."

/-- The f-string task description of `generate_technical_qa` (lines 167-179). -/
def technical_description (role exp tech : String) : String :=
  "Generate 10 technical interview questions and answers for the job role: " ++ role ++ ".\n" ++
  "Target candidate level: " ++ exp ++ ". Relevant technologies: " ++ tech ++ ".\n" ++
  "Use ONLY plain text (no markdown).\n" ++
  "Format STRICTLY like this:\n" ++
  "Q1: <question text>\n" ++
  "A1: <answer text>\n" ++
  "Q2: <question text>\n" ++
  "A2: <answer text>\n" ++
  "...\n" ++
  "Questions should test core fundamentals, problem solving, and role-specific concepts."

/-- The task description of `generate_hr_qa` (lines 218-231); only `role`
is interpolated there. -/
def hr_description (role : String) : String :=
  "Generate 10 HR and behavioral interview questions with strong sample answers " ++
  "for a candidate applying as " ++ role ++ ".\n" ++
  "Focus on communication, teamwork, conflicts, strengths/weaknesses, failure, pressure handling, etc.\n" ++
  "Plain text only. No markdown.\n" ++
  "Format STRICTLY like this:\n" ++
  "Q1: <question text>\n" ++
  "A1: <answer text>\n" ++
  "Q2: <question text>\n" ++
  "A2: <answer text>\n" ++
  "...\n" ++
  "Answers should sound like a good B.Tech student preparing for placements."

/-- The f-string task description of `generate_interview_tips` (lines 270-280). -/
def tips_description (role exp tech : String) : String :=
  "Give interview tips specifically for the role: " ++ role ++ ".\n" ++
  "Candidate level: " ++ exp ++ ", Tech: " ++ tech ++ ".\n" ++
  "Include:\n" ++
  "- Do\x27s before the interview (preparation, resume, projects).\n" ++
  "- Do\x27s during the interview (body language, how to answer).\n" ++
  "- Don\x27ts (common mistakes students make).\n" ++
  "- Final motivation / confidence boost.\n" ++
  "Use plain text, no markdown, and keep it crisp and practical."

/-- The four generation categories, one per POST endpoint. -/
inductive Category where
  | overview
  | technical_qa
  | hr_qa
  | interview_tips
deriving DecidableEq, Repr

/-- The Task value built inside each handler's try block. -/
def task_for : Category → String → String → String → Task
  | .overview, role, exp, tech =>
      { description := overview_description role exp tech
      , expected_output := "Structured interview overview in plain text."
      , agent := build_career_agent }
  | .technical_qa, role, exp, tech =>
      { description := technical_description role exp tech
      , expected_output := "10 technical Q&A pairs in the specified Q/A format."
      , agent := build_technical_agent }
  | .hr_qa, role, _, _ =>
      { description := hr_description role
      , expected_output := "10 HR Q&A pairs in the specified Q/A format."
      , agent := build_hr_agent }
  | .interview_tips, role, exp, tech =>
      { description := tips_description role exp tech
      , expected_output := "Practical do\x27s, don\x27ts and success tips in plain text."
      , agent := build_tips_agent }

/-- JSON key of the generation-category field of each endpoint's response. -/
def categoryFieldName : Category → String
  | .overview => "overview"
  | .technical_qa => "technical_qa"
  | .hr_qa => "hr_qa"
  | .interview_tips => "interview_tips"

/-- The human label used in each handler's error message
(`"Error generating overview: ..."` etc., lines 145, 195, 247, 296). -/
def errorLabel : Category → String
  | .overview => "overview"
  | .technical_qa => "technical Q&A"
  | .hr_qa => "HR Q&A"
  | .interview_tips => "interview tips"

/-- An HTTP response: status code plus a JSON object of string fields
(kept as an ordered association list, matching the dict literals). -/
structure HttpResponse where
  status : Nat
  body : List (String × String)
deriving DecidableEq, Repr

/-- `generate_overview` (src/main.py lines 111-152).  `outcome` is the
result of the try block's effectful part: `.ok r` when
`str(crew.kickoff())` returns `r`, `.error e` when agent/task/crew
construction or kickoff raises an exception with message `e`. -/
def generate_overview (request : JobRoleRequest) (outcome : Except String String) :
    HttpResponse :=
  let role := request.role
  let exp := pyOr request.experience_level "Fresher"
  let tech := pyOr request.tech_stack "General"
  let overview_text :=
    match outcome with
    | .ok result => result
    | .error e => "Error generating overview: " ++ e
  { status := 200
  , body := [("role", role), ("experience_level", exp), ("tech_stack", tech),
             ("overview", overview_text)] }

/-- `generate_technical_qa` (src/main.py lines 156-202). -/
def generate_technical_qa (request : JobRoleRequest) (outcome : Except String String) :
    HttpResponse :=
  let role := request.role
  let exp := pyOr request.experience_level "Fresher"
  let tech := pyOr request.tech_stack "General"
  let technical_text :=
    match outcome with
    | .ok result => result
    | .error e => "Error generating technical Q&A: " ++ e
  { status := 200
  , body := [("role", role), ("experience_level", exp), ("tech_stack", tech),
             ("technical_qa", technical_text)] }

/-- `generate_hr_qa` (src/main.py lines 207-254). -/
def generate_hr_qa (request : JobRoleRequest) (outcome : Except String String) :
    HttpResponse :=
  let role := request.role
  let exp := pyOr request.experience_level "Fresher"
  let tech := pyOr request.tech_stack "General"
  let hr_text :=
    match outcome with
    | .ok result => result
    | .error e => "Error generating HR Q&A: " ++ e
  { status := 200
  , body := [("role", role), ("experience_level", exp), ("tech_stack", tech),
             ("hr_qa", hr_text)] }

/-- `generate_interview_tips` (src/main.py lines 259-303). -/
def generate_interview_tips (request : JobRoleRequest) (outcome : Except String String) :
    HttpResponse :=
  let role := request.role
  let exp := pyOr request.experience_level "Fresher"
  let tech := pyOr request.tech_stack "General"
  let tips_text :=
    match outcome with
    | .ok result => result
    | .error e => "Error generating interview tips: " ++ e
  { status := 200
  , body := [("role", role), ("experience_level", exp), ("tech_stack", tech),
             ("interview_tips", tips_text)] }

/-- Dispatch a validated request to the handler of a category. -/
def runHandler (c : Category) (request : JobRoleRequest)
    (outcome : Except String String) : HttpResponse :=
  match c with
  | .overview => generate_overview request outcome
  | .technical_qa => generate_technical_qa request outcome
  | .hr_qa => generate_hr_qa request outcome
  | .interview_tips => generate_interview_tips request outcome

/-- A POST endpoint as FastAPI runs it: validate the body against
`JobRoleRequest`; on validation failure answer 422 without running the
handler (so without constructing an agent or attempting a model call);
otherwise run the handler. -/
def handleEndpoint (c : Category) (b : RawBody)
    (outcome : Except String String) : HttpResponse :=
  match parseJobRoleRequest b with
  | .error e => { status := 422, body := [("detail", e)] }
  | .ok request => runHandler c request outcome

/-- `health_check` (src/main.py lines 54-56), wrapped by FastAPI as a 200. -/
def health_check : HttpResponse :=
  { status := 200, body := [("status", "ok")] }

/-- Module-level credential check (src/main.py lines 13-16): a missing
GEMINI_API_KEY raises ValueError at import time. -/
def gemini_api_key_check (env : Option String) : Except String String :=
  match env with
  | none => .error "GEMINI_API_KEY is not set. Please add it to your .env file."
  | some k => .ok k

/-! ## Helper lemmas -/

/-- A list is a contiguous sublist of itself followed by anything. -/
theorem contains_self_append {α : Type} (l t : List α) : l <:+: l ++ t :=
  ⟨[], t, by simp⟩

/-- A contiguous sublist of `m` is one of `a ++ m`. -/
theorem contains_of_append_left {α : Type} (a : List α) {l m : List α}
    (h : l <:+: m) : l <:+: a ++ m := by
  obtain ⟨s, t, rfl⟩ := h
  exact ⟨a ++ s, t, by simp⟩

/-! ## Claims -/

/-- Claim C1: for every valid request, when the model invocation (agent,
task or crew construction, or kickoff) raises an exception with message
`e`, the endpoint still answers HTTP 200 and the generation-category field
is a string beginning with "Error generating <category>: " where the
category label names the endpoint; no exception propagates as a non-200
status. -/
theorem generation_error_gives_200_and_error_text (c : Category)
    (request : JobRoleRequest) (e : String) :
    (runHandler c request (.error e)).status = 200 ∧
    ∃ rest, (runHandler c request (.error e)).body.lookup (categoryFieldName c) =
      some ("Error generating " ++ errorLabel c ++ ": " ++ rest) := by
  cases c <;>
    exact ⟨rfl, e, by
      simp [runHandler, generate_overview, generate_technical_qa, generate_hr_qa,
        generate_interview_tips, categoryFieldName, errorLabel, List.lookup]⟩

/-- Claim C2: for every valid request and every outcome of the model call,
each endpoint returns HTTP 200 and a JSON object with exactly the four
keys role, experience_level, tech_stack and the single generation-category
field of that endpoint (all values are strings by construction). -/
theorem response_shape (c : Category) (request : JobRoleRequest)
    (outcome : Except String String) :
    (runHandler c request outcome).status = 200 ∧
    (runHandler c request outcome).body.map Prod.fst =
      ["role", "experience_level", "tech_stack", categoryFieldName c] := by
  cases c <;> cases outcome <;>
    simp [runHandler, generate_overview, generate_technical_qa, generate_hr_qa,
      generate_interview_tips, categoryFieldName]

/-- Claim C3: a body omitting experience_level yields "Fresher" in the
response of every endpoint, and a body omitting tech_stack yields
"General". -/
theorem omitted_fields_get_defaults (c : Category) (r : String)
    (ev tv : FieldVal) (outcome : Except String String) :
    (handleEndpoint c ⟨.str r, .absent, tv⟩ outcome).body.lookup "experience_level" =
      some "Fresher" ∧
    (handleEndpoint c ⟨.str r, ev, .absent⟩ outcome).body.lookup "tech_stack" =
      some "General" := by
  cases c <;> cases ev <;> cases tv <;> cases outcome <;>
    simp [handleEndpoint, parseJobRoleRequest, runHandler, generate_overview,
      generate_technical_qa, generate_hr_qa, generate_interview_tips, pyOr,
      List.lookup]

set_option maxRecDepth 80000 in
/-- Claim C4 counterexample: it is not true that for every category the
instruction string contains the interpolated role, experience level and
technology stack: the hr_qa task description interpolates only the role
(src/main.py lines 218-231), refuted at role "Data Analyst", experience
level "z", tech stack "General". -/
theorem interpolation_claim_counterexample :
    ¬ (∀ (c : Category) (role exp tech : String),
        role.data <:+: (task_for c role exp tech).description.data ∧
        exp.data <:+: (task_for c role exp tech).description.data ∧
        tech.data <:+: (task_for c role exp tech).description.data) := by
  intro h
  exact absurd (h .hr_qa "Data Analyst" "z" "General").2.1 (by decide)

/-- Claim C4 amended: for every category the instruction string contains
the interpolated role; for every category other than hr_qa it also
contains the interpolated experience level and technology stack. -/
theorem task_description_interpolation (c : Category) (role exp tech : String) :
    role.data <:+: (task_for c role exp tech).description.data ∧
    (c ≠ .hr_qa →
      exp.data <:+: (task_for c role exp tech).description.data ∧
      tech.data <:+: (task_for c role exp tech).description.data) := by
  cases c
  case overview =>
    refine ⟨?_, fun _ => ⟨?_, ?_⟩⟩ <;>
      · simp only [task_for, overview_description, String.data_append,
          List.append_assoc]
        repeat first
          | exact contains_self_append _ _
          | apply contains_of_append_left
  case technical_qa =>
    refine ⟨?_, fun _ => ⟨?_, ?_⟩⟩ <;>
      · simp only [task_for, technical_description, String.data_append,
          List.append_assoc]
        repeat first
          | exact contains_self_append _ _
          | apply contains_of_append_left
  case hr_qa =>
    refine ⟨?_, fun hne => absurd rfl hne⟩
    simp only [task_for, hr_description, String.data_append, List.append_assoc]
    repeat first
      | exact contains_self_append _ _
      | apply contains_of_append_left
  case interview_tips =>
    refine ⟨?_, fun _ => ⟨?_, ?_⟩⟩ <;>
      · simp only [task_for, tips_description, String.data_append,
          List.append_assoc]
        repeat first
          | exact contains_self_append _ _
          | apply contains_of_append_left

/-- Witness for the amended C4 at category overview with concrete
role, experience level and tech stack. -/
theorem task_description_interpolation_witness :
    ("Data Analyst" : String).data <:+:
      (task_for .overview "Data Analyst" "Fresher" "Python, SQL").description.data ∧
    ("Fresher" : String).data <:+:
      (task_for .overview "Data Analyst" "Fresher" "Python, SQL").description.data ∧
    ("Python, SQL" : String).data <:+:
      (task_for .overview "Data Analyst" "Fresher" "Python, SQL").description.data := by
  have h := task_description_interpolation .overview "Data Analyst" "Fresher" "Python, SQL"
  exact ⟨h.1, (h.2 (by decide)).1, (h.2 (by decide)).2⟩

/-- Claim C5: a body omitting the role field gets a 422 validation
response from every endpoint, and the response does not depend on the
model-call outcome (no agent is constructed, no model call attempted). -/
theorem missing_role_is_rejected_before_model_call (c : Category)
    (ev tv : FieldVal) (o1 o2 : Except String String) :
    (handleEndpoint c ⟨.absent, ev, tv⟩ o1).status = 422 ∧
    handleEndpoint c ⟨.absent, ev, tv⟩ o1 = handleEndpoint c ⟨.absent, ev, tv⟩ o2 :=
  ⟨rfl, rfl⟩

/-- Claim C6: the health endpoint always returns status 200 with the fixed
payload mapping "status" to "ok"; it reads nothing from any request or
from the model backend. -/
theorem health_check_is_fixed :
    health_check.status = 200 ∧ health_check.body = [("status", "ok")] :=
  ⟨rfl, rfl⟩

/-- Claim C7: prompt composition is deterministic: two runs of the task
builder on equal (role, experience level, tech stack) triples give
identical instruction strings and identical expected-output
descriptions, for every category. -/
theorem prompt_composition_deterministic (c : Category)
    (r e t r2 e2 t2 : String) (h : (r, e, t) = (r2, e2, t2)) :
    (task_for c r e t).description = (task_for c r2 e2 t2).description ∧
    (task_for c r e t).expected_output = (task_for c r2 e2 t2).expected_output := by
  injection h with h1 h23
  injection h23 with h2 h3
  subst h1
  subst h2
  subst h3
  exact ⟨rfl, rfl⟩

/-- Witness for C7 at a concrete category and triple. -/
theorem prompt_composition_deterministic_witness :
    (task_for .technical_qa "Backend Developer" "Fresher" "Python, SQL").description =
      (task_for .technical_qa "Backend Developer" "Fresher" "Python, SQL").description ∧
    (task_for .technical_qa "Backend Developer" "Fresher" "Python, SQL").expected_output =
      (task_for .technical_qa "Backend Developer" "Fresher" "Python, SQL").expected_output :=
  prompt_composition_deterministic .technical_qa "Backend Developer" "Fresher"
    "Python, SQL" "Backend Developer" "Fresher" "Python, SQL" rfl

/-- Claim C8: with GEMINI_API_KEY unset, module initialization raises an
error (the service does not start); with it set, startup proceeds past the
credential check. -/
theorem gemini_api_key_startup_check :
    (∃ msg, gemini_api_key_check none = .error msg) ∧
    ∀ k, gemini_api_key_check (some k) = .ok k :=
  ⟨⟨"GEMINI_API_KEY is not set. Please add it to your .env file.", rfl⟩,
   fun _ => rfl⟩

/-- Claim C9: an experience_level supplied as explicit null or as the
empty string yields "Fresher", a tech_stack supplied as null or the empty
string yields "General", and any non-empty supplied value is echoed
unchanged, on every endpoint. -/
theorem falsy_values_get_defaults (c : Category) (r s : String)
    (ev tv : FieldVal) (o : Except String String) (hs : s ≠ "") :
    (handleEndpoint c ⟨.str r, .null, tv⟩ o).body.lookup "experience_level" =
      some "Fresher" ∧
    (handleEndpoint c ⟨.str r, .str "", tv⟩ o).body.lookup "experience_level" =
      some "Fresher" ∧
    (handleEndpoint c ⟨.str r, ev, .null⟩ o).body.lookup "tech_stack" =
      some "General" ∧
    (handleEndpoint c ⟨.str r, ev, .str ""⟩ o).body.lookup "tech_stack" =
      some "General" ∧
    (handleEndpoint c ⟨.str r, .str s, tv⟩ o).body.lookup "experience_level" =
      some s ∧
    (handleEndpoint c ⟨.str r, ev, .str s⟩ o).body.lookup "tech_stack" =
      some s := by
  cases c <;> cases ev <;> cases tv <;> cases o <;>
    simp [handleEndpoint, parseJobRoleRequest, runHandler, generate_overview,
      generate_technical_qa, generate_hr_qa, generate_interview_tips, pyOr,
      List.lookup, hs]

/-- Witness for C9 at a concrete endpoint, body and outcome. -/
theorem falsy_values_get_defaults_witness :
    (handleEndpoint .overview ⟨.str "Data Analyst", .null, .str "Go"⟩
        (.ok "text")).body.lookup "experience_level" = some "Fresher" ∧
    (handleEndpoint .overview ⟨.str "Data Analyst", .str "", .str "Go"⟩
        (.ok "text")).body.lookup "experience_level" = some "Fresher" ∧
    (handleEndpoint .overview ⟨.str "Data Analyst", .str "Senior", .null⟩
        (.ok "text")).body.lookup "tech_stack" = some "General" ∧
    (handleEndpoint .overview ⟨.str "Data Analyst", .str "Senior", .str ""⟩
        (.ok "text")).body.lookup "tech_stack" = some "General" ∧
    (handleEndpoint .overview ⟨.str "Data Analyst", .str "Senior", .str "Go"⟩
        (.ok "text")).body.lookup "experience_level" = some "Senior" ∧
    (handleEndpoint .overview ⟨.str "Data Analyst", .str "Senior", .str "Senior"⟩
        (.ok "text")).body.lookup "tech_stack" = some "Senior" :=
  falsy_values_get_defaults .overview "Data Analyst" "Senior" (.str "Senior")
    (.str "Go") (.ok "text") (by decide)

/-- Claim C10: the error path is envelope-preserving: for the same request
the error response and the success response have the same keys in the same
order, and identical role, experience_level and tech_stack values (the
defaulted echo computed before the fallible call). -/
theorem error_path_preserves_envelope (c : Category)
    (request : JobRoleRequest) (e r : String) :
    (runHandler c request (.error e)).body.map Prod.fst =
      (runHandler c request (.ok r)).body.map Prod.fst ∧
    (runHandler c request (.error e)).body.lookup "role" =
      (runHandler c request (.ok r)).body.lookup "role" ∧
    (runHandler c request (.error e)).body.lookup "experience_level" =
      (runHandler c request (.ok r)).body.lookup "experience_level" ∧
    (runHandler c request (.error e)).body.lookup "tech_stack" =
      (runHandler c request (.ok r)).body.lookup "tech_stack" := by
  cases c <;>
    simp [runHandler, generate_overview, generate_technical_qa, generate_hr_qa,
      generate_interview_tips, List.lookup]

end InterviewAssistant
